import Mathlib

set_option autoImplicit false

namespace CloudMirror

/-! Shallow embedding of the caching and copy-coordination core of
taskcluster/cloud-mirror.  The external collaborators (HTTP origin, S3,
SQS, redis) enter the embedding as explicit parameters: a HEAD oracle,
an upload outcome, a store read or write outcome.  Every definition below
is a direct transcription of the corresponding JavaScript control flow. -/

/-- Result of a single HTTP HEAD request as consumed by the redirect
validators: the status code and the Location header when present. -/
structure HeadResponse where
  statusCode : Nat
  location : Option String
  deriving Repr, DecidableEq

/-- One hop recorded while following a redirect chain.  The source pushes
the status code, the url and a timestamp; time is not modelled. -/
structure Hop where
  code : Nat
  url : String
  deriving Repr, DecidableEq

/-- Successful validation outcome: the final url, its HEAD response and
the recorded hop chain. -/
structure UrlInfo where
  url : String
  meta : HeadResponse
  addresses : List Hop
  deriving Repr, DecidableEq

/-- Error codes raised by the redirect validators.  `insecureUrl` is the
code InsecureURL, `doesNotMatchPatterns` is DoesNotMatchPatterns,
`httpError` is HTTPError (the BadHTTPStatus of the spec taxonomy),
`redirectLimitReached` is RedirectLimitReached (TooManyRedirects in the
spec taxonomy), and `missingLocation` models the
assert(result.headers.location) failure on a redirect without Location. -/
inductive VErr where
  | insecureUrl
  | doesNotMatchPatterns
  | httpError
  | redirectLimitReached
  | missingLocation
  deriving Repr, DecidableEq

/-- URL allowlist patterns: a compiled regular expression is consumed only
through its test method, so a pattern is embedded as its test function. -/
abbrev UrlPattern := String → Bool

/-- The anchored regex test for https used by both validators: the url
matches when its first characters are the literal scheme characters. -/
def matchesHttps : List Char → Bool
  | 'h' :: 't' :: 't' :: 'p' :: 's' :: ':' :: _ => true
  | _ => false

/-- The checkSSL helper of lib/follow-redirects (src/unnamed/part_009
line 270): a url passes when it matches the anchored regex for https, and
the check is replaced by a no-op when ensureSSL is false. -/
def sslOk (ensureSSL : Bool) (u : String) : Bool :=
  !ensureSSL || matchesHttps u.data

/-- The checkPatterns helper of lib/follow-redirects (part_009 line 291):
at least one allowed pattern must match the url. -/
def patternsOk (patterns : List UrlPattern) (u : String) : Bool :=
  patterns.any fun p => p u

/-- Loop body of followRedirects (lib/follow-redirects, src/unnamed/part_009
lines 262 to 355).  The fuel argument is the remaining redirect budget;
running out of it models the final throw of RedirectLimitReached.  The
`resolve` parameter is the node url.resolve collaborator; the source
resolves the Location value against the current url twice, which is kept
verbatim here. -/
def followRedirectsGo (oracle : String → HeadResponse)
    (resolve : String → String → String) (patterns : List UrlPattern)
    (ensureSSL : Bool) : Nat → String → List Hop → Except VErr UrlInfo
  | 0, _, _ => .error .redirectLimitReached
  | n + 1, u, addrs =>
    if !(sslOk ensureSSL u) then .error .insecureUrl
    else if !(patternsOk patterns u) then .error .doesNotMatchPatterns
    else
      let r := oracle u
      let addrs2 := addrs ++ [⟨r.statusCode, u⟩]
      if 200 ≤ r.statusCode ∧ r.statusCode < 300 then
        .ok ⟨u, r, addrs2⟩
      else if 300 ≤ r.statusCode ∧ r.statusCode < 400 ∧
          r.statusCode ≠ 304 ∧ r.statusCode ≠ 305 then
        match r.location with
        | none => .error .missingLocation
        | some loc =>
          followRedirectsGo oracle resolve patterns ensureSSL n
            (resolve u (resolve u loc)) addrs2
      else .error .httpError

/-- followRedirects of lib/follow-redirects (src/unnamed/part_009 lines
262 to 355): follow up to redirectLimit hops starting from firstUrl. -/
def followRedirects (oracle : String → HeadResponse)
    (resolve : String → String → String) (patterns : List UrlPattern)
    (redirectLimit : Nat) (ensureSSL : Bool) (firstUrl : String) :
    Except VErr UrlInfo :=
  followRedirectsGo oracle resolve patterns ensureSSL redirectLimit firstUrl []

/-- Loop body of validateUrl (src/src/validate-url.js lines 57 to 99).
Unlike followRedirects, a TLS or allowlist failure and an exhausted
redirect budget return false (here `Except.ok none`) instead of raising;
a non-2xx non-redirect status still raises HTTPError. -/
def validateUrlGo (oracle : String → HeadResponse)
    (resolve : String → String → String) (patterns : List UrlPattern)
    (ensureSSL : Bool) : Nat → String → List Hop → Except VErr (Option UrlInfo)
  | 0, _, _ => .ok none
  | n + 1, u, addrs =>
    if !(sslOk ensureSSL u) || !(patternsOk patterns u) then .ok none
    else
      let r := oracle u
      let addrs2 := addrs ++ [⟨r.statusCode, u⟩]
      if 200 ≤ r.statusCode ∧ r.statusCode < 300 then
        .ok (some ⟨u, r, addrs2⟩)
      else if 300 ≤ r.statusCode ∧ r.statusCode < 400 ∧
          r.statusCode ≠ 304 ∧ r.statusCode ≠ 305 then
        match r.location with
        | none => .error .missingLocation
        | some loc =>
          validateUrlGo oracle resolve patterns ensureSSL n
            (resolve u (resolve u loc)) addrs2
      else .error .httpError

/-- validateUrl of src/src/validate-url.js: returns the validation outcome,
`Except.ok none` standing for the false return of the source. -/
def validateUrl (oracle : String → HeadResponse)
    (resolve : String → String → String) (patterns : List UrlPattern)
    (redirectLimit : Nat) (ensureSSL : Bool) (firstUrl : String) :
    Except VErr (Option UrlInfo) :=
  validateUrlGo oracle resolve patterns ensureSSL redirectLimit firstUrl []

/-- Modelled from the spec: the options-object variant of lib/validate-url
required by src/unnamed/part_010 line 12 and src/unnamed/part_006 line 6 is
absent from src (only its callers and its test remain), so its algorithm is
taken from spec section 4.A: (1) fail InsecureURL when ensureTLS holds and
the scheme is not https; (2) fail DisallowedURL unless some allowlist
regex matches; (3) issue a HEAD without automatic redirect following;
(4) record the hop; (5) a 2xx or 304 status returns, a 3xx status other
than 304 and 305 resolves Location against the current url and continues,
any other status fails BadHTTPStatus; exceeding the limit fails
TooManyRedirects. -/
def specValidateUrlGo (oracle : String → HeadResponse)
    (resolve : String → String → String) (patterns : List UrlPattern)
    (ensureTLS : Bool) : Nat → String → List Hop → Except VErr UrlInfo
  | 0, _, _ => .error .redirectLimitReached
  | n + 1, u, addrs =>
    if !(sslOk ensureTLS u) then .error .insecureUrl
    else if !(patternsOk patterns u) then .error .doesNotMatchPatterns
    else
      let r := oracle u
      let addrs2 := addrs ++ [⟨r.statusCode, u⟩]
      if (200 ≤ r.statusCode ∧ r.statusCode < 300) ∨ r.statusCode = 304 then
        .ok ⟨u, r, addrs2⟩
      else if 300 ≤ r.statusCode ∧ r.statusCode < 400 ∧ r.statusCode ≠ 305 then
        match r.location with
        | none => .error .missingLocation
        | some loc =>
          specValidateUrlGo oracle resolve patterns ensureTLS n
            (resolve u loc) addrs2
      else .error .httpError

/-- Modelled from the spec: entry point of the missing options-object
validate-url variant, per spec section 4.A. -/
def specValidateUrl (oracle : String → HeadResponse)
    (resolve : String → String → String) (patterns : List UrlPattern)
    (redirectLimit : Nat) (ensureTLS : Bool) (firstUrl : String) :
    Except VErr UrlInfo :=
  specValidateUrlGo oracle resolve patterns ensureTLS redirectLimit firstUrl []

/-! S3 storage provider (src/src/s3-storage-provider.js). -/

/-- HTTP headers handed to the provider, as a flat association list. -/
abbrev Headers := List (String × String)

/-- Lookup of a header value by exact name. -/
def hget (hs : Headers) (k : String) : Option String :=
  (hs.find? fun p => p.fst = k).map Prod.snd

/-- Mapping of HTTP headers to S3 request properties
(src/src/s3-storage-provider.js lines 43 to 49). -/
def HTTPHeaderToS3Prop : List (String × String) :=
  [("Content-Type", "ContentType"),
   ("Content-Disposition", "ContentDisposition"),
   ("Content-MD5", "ContentMD5"),
   ("Content-Encoding", "ContentEncoding"),
   ("Content-Length", "ContentLength")]

/-- Headers which must be specified during an upload (line 54). -/
def MandatoryHTTPHeaders : List String := ["Content-Type"]

/-- Headers which must not be specified during an upload (line 59). -/
def DisallowedHTTPHeaders : List String := ["Cache-Control", "Expires"]

/-- The forEach over HTTPHeaderToS3Prop in S3StorageProvider.put (lines 111
to 120): a disallowed header name in the mapping raises, a mandatory header
missing from the request raises (assert), and each provided header is
copied onto its S3 request property. -/
def s3HeaderFold (hs : Headers) : List (String × String) → Except String (List (String × String))
  | [] => .ok []
  | (hh, prop) :: rest =>
    if hh ∈ DisallowedHTTPHeaders then
      .error ("The HTTP header " ++ hh ++ " is not allowed")
    else if hh ∈ MandatoryHTTPHeaders ∧ hget hs hh = none then
      .error ("HTTP Header must be specified: " ++ hh)
    else
      match s3HeaderFold hs rest, hget hs hh with
      | .error e, _ => .error e
      | .ok ps, some v => .ok ((prop, v) :: ps)
      | .ok ps, none => .ok ps

/-- Result of S3StorageProvider.put: the S3 properties derived from the
headers, and the wrapSend result, which is none when the upload failed,
because the try block around wrapSend at lines 131 to 135 has an empty
catch and so swallows the upload error. -/
structure S3PutResult where
  props : List (String × String)
  uploadResult : Option Unit
  deriving Repr, DecidableEq

/-- S3StorageProvider.put (src/src/s3-storage-provider.js lines 95 to 138).
The upload itself is the external collaborator: `uploadOutcome` is what
awaiting wrapSend would produce.  The function raises only from the header
checks; an upload error is swallowed by the empty catch block and the
function returns normally with uploadResult none. -/
def s3ProviderPut (headers : Headers) (uploadOutcome : Except String Unit) :
    Except String S3PutResult :=
  match s3HeaderFold headers HTTPHeaderToS3Prop with
  | .error e => .error e
  | .ok ps =>
    .ok ⟨ps, match uploadOutcome with
             | .ok r => some r
             | .error _ => none⟩

/-- worldAddress of S3StorageProvider (lines 178 to 194): the public https
url of the regional copy.  `uriEncode` is the encodeURIComponent
collaborator. -/
def worldAddress (region bucket : String) (uriEncode : String → String)
    (rawUrl : String) : String :=
  let s3Domain :=
    if region = "us-east-1" then "s3.amazonaws.com"
    else "s3-" ++ region ++ ".amazonaws.com"
  "https://" ++ bucket ++ "." ++ s3Domain ++ "/" ++ uriEncode rawUrl

/-! Cache manager (src/unnamed/part_010). -/

/-- CACHE_STATES of src/unnamed/part_010 line 16. -/
def CACHE_STATES : List String := ["present", "pending", "error"]

/-- Cache entry as stored in redis by part_010: the verbatim url, the
status string, and the stack text for error entries. -/
structure CacheEntryR where
  url : String
  status : String
  stack : Option String
  deriving Repr, DecidableEq

/-- cacheKey of part_010 line 229: pool id, underscore, encoded url. -/
def cacheKey (id : String) (uriEncode : String → String) (rawUrl : String) : String :=
  id ++ "_" ++ uriEncode rawUrl

/-- Monitor interactions performed by the cache entry accessors. -/
inductive MEvent where
  | reportError
  | countReadFailure
  | countInsertFailure
  | countHit
  | countMiss
  deriving Repr, DecidableEq

/-- readCacheEntry of part_010 lines 260 to 277.  `storeResult` is what
awaiting redis would produce.  A store error is caught, reported to the
monitor and counted as redis.cache-read-failure, after which the result is
still undefined and is counted as a miss; the only raise left is the assert
that a found entry carries a valid status.  The first component is the
value handed to the caller, the second the monitor events in order. -/
def readCacheEntry (storeResult : Except String (Option CacheEntryR)) :
    Except String (Option CacheEntryR) × List MEvent :=
  match storeResult with
  | .error _ => (.ok none, [.reportError, .countReadFailure, .countMiss])
  | .ok none => (.ok none, [.countMiss])
  | .ok (some e) =>
    if e.status ∈ CACHE_STATES then (.ok (some e), [.countHit])
    else (.error ("cacheEntry has invalid state " ++ e.status), [])

/-- insertCacheEntry of part_010 lines 233 to 258.  The asserts on the
arguments raise; the store write is wrapped in try/catch, so a store error
is reported to the monitor, counted as redis.cache-insert-failure and
swallowed, and the function returns normally. -/
def insertCacheEntry (status : String) (ttl : Int) (stack : Option String)
    (storePut : Except String Unit) : Except String (List MEvent) :=
  if status = "" then .error "assert status"
  else if ttl = 0 then .error "assert ttl"
  else if status ∉ CACHE_STATES then .error "assert includes status"
  else if status = "error" ∧ stack = none then .error "assert stack"
  else
    match storePut with
    | .error _ => .ok [.reportError, .countInsertFailure]
    | .ok _ => .ok []

/-- The TTL computed by the backfill path of CacheManager.getUrlForRedirect
(part_010 lines 176 to 180): setTTL = expires - now in milliseconds,
divided by 1000, minus 30 times 60, then Math.floor.  There is no flooring
at zero in the source. -/
def backfillTTL (expiresMs nowMs : Int) : Int :=
  Int.floor (((expiresMs - nowMs : Int) : ℚ) / 1000 - 30 * 60)

/-- Outcome of getUrlForRedirect: the public url, the status string
returned to the api, and the TTL of the present entry inserted by the
backfill path when that path ran. -/
structure RedirectOutcome where
  url : String
  status : String
  backfillInsertTTL : Option Int
  deriving Repr, DecidableEq

/-- getUrlForRedirect of part_010 lines 148 to 198.  `entry` is the cache
entry read for the url (the readCacheEntry value), `addr` the
storageProvider worldAddress, `validator` the urlValidator closure of
part_010 lines 44 to 50 applied to a url, `expOf` the storageProvider
expirationDate collaborator applied to the validation headers, and `nowMs`
the clock.  On a miss the worldAddress is run through the full validator;
any validator raise is caught and yields status absent; a 2xx validator
status code backfills a present entry with the capped TTL. -/
def getUrlForRedirect (entry : Option CacheEntryR) (addr : String)
    (validator : String → Except VErr UrlInfo)
    (expOf : HeadResponse → Int) (nowMs : Int) :
    Except String RedirectOutcome :=
  match entry with
  | none =>
    match validator addr with
    | .error _ => .ok ⟨addr, "absent", none⟩
    | .ok info =>
      if 200 ≤ info.meta.statusCode ∧ info.meta.statusCode < 300 then
        .ok ⟨addr, "present", some (backfillTTL (expOf info.meta) nowMs)⟩
      else .ok ⟨addr, "absent", none⟩
  | some e =>
    if e.status = "present" then .ok ⟨addr, "present", none⟩
    else if e.status = "pending" then .ok ⟨addr, "pending", none⟩
    else if e.status = "error" then .ok ⟨addr, "error", none⟩
    else .error ("cacheEntry has invalid state " ++ e.status)

/-! Copy operation of the worker: CacheManager.put (part_010 lines 53
to 146), viewed as the sequence of observable actions it performs. -/

/-- Observable actions of one copy operation.  `insertEntry` carries the
status written and whether a stack text accompanies it; `blobPutStart`
marks the first byte sent to the blob store; `blobPutDone` records whether
storageProvider.put returned without raising; `purge` is the blob delete;
`lockAcquire` is the single-flight lock acquisition named by the spec,
listed here so that its absence from every trace can be stated. -/
inductive Ev where
  | insertEntry (status : String) (withStack : Bool)
  | streamOpen
  | blobPutStart
  | blobPutDone (ok : Bool)
  | purge
  | lockAcquire
  deriving Repr, DecidableEq

/-- Where a single run of CacheManager.put fails, if anywhere.
`validationError` is a raise out of createUrlReadStream (the url
validator or the GET), `streamError` an error event on the input stream
during the upload, `uploadError` a raise out of storageProvider.put. -/
inductive PutOutcome where
  | success
  | validationError
  | streamError
  | uploadError
  deriving Repr, DecidableEq

/-- Action trace of CacheManager.put (part_010 lines 53 to 146) for each
outcome.  The pending write at line 58 precedes everything; on success the
present write at line 140 follows the upload; the catch at lines 142 to
145 writes error with the stack and performs no purge; only the stream
error handler at lines 75 to 79 purges the blob before writing error. -/
def putTrace : PutOutcome → List Ev
  | .success =>
    [.insertEntry "pending" false, .streamOpen, .blobPutStart,
     .blobPutDone true, .insertEntry "present" false]
  | .validationError =>
    [.insertEntry "pending" false, .insertEntry "error" true]
  | .streamError =>
    [.insertEntry "pending" false, .streamOpen, .blobPutStart, .purge,
     .insertEntry "error" true, .blobPutDone false, .insertEntry "error" true]
  | .uploadError =>
    [.insertEntry "pending" false, .streamOpen, .blobPutStart,
     .blobPutDone false, .insertEntry "error" true]

/-- Scan a trace: true when an insertEntry pending occurs before the first
blobPutStart (vacuously true when no byte is ever sent). -/
def pendingBeforeBytes : List Ev → Bool
  | [] => true
  | .insertEntry "pending" _ :: _ => true
  | .blobPutStart :: _ => false
  | _ :: t => pendingBeforeBytes t

/-- Scan a trace: true when every insertEntry present is preceded by a
blobPutDone true. -/
def presentOnlyAfterUpload (seenOk : Bool) : List Ev → Bool
  | [] => true
  | .blobPutDone true :: t => presentOnlyAfterUpload true t
  | .insertEntry "present" _ :: t => seenOk && presentOnlyAfterUpload seenOk t
  | _ :: t => presentOnlyAfterUpload seenOk t

/-- Scan a trace: true when some insertEntry error occurs. -/
def hasErrorWrite : List Ev → Bool
  | [] => false
  | .insertEntry "error" _ :: _ => true
  | _ :: t => hasErrorWrite t

/-- Scan a trace: true when some purge occurs. -/
def hasPurge : List Ev → Bool
  | [] => false
  | .purge :: _ => true
  | _ :: t => hasPurge t

/-- Scan a trace: true when a purge occurs before the first insertEntry
error (false when an error write occurs with no preceding purge). -/
def purgeBeforeErrorWrite : List Ev → Bool
  | [] => true
  | .purge :: _ => true
  | .insertEntry "error" _ :: _ => false
  | _ :: t => purgeBeforeErrorWrite t

/-- Scan a trace: true when every insertEntry error carries a stack. -/
def errorWritesCarryStack : List Ev → Bool
  | [] => true
  | .insertEntry "error" w :: t => w && errorWritesCarryStack t
  | _ :: t => errorWritesCarryStack t

/-! Concurrency model for the redirect burst (src/unnamed/part_006 handler,
part_010 requestPut, part_002 backend workers).  The status store offers no
conditional write and CacheManager.put acquires no lock, so the
interleaving in which every request of a burst reads the status store
before any of them writes is permitted; this model follows that
interleaving. -/

/-- State of the system projected onto one (pool, url) key: the cache
entry, the number of queued copy jobs for the url, and the number of blob
uploads performed. -/
structure MirrorState where
  entry : Option String
  jobs : Nat
  uploads : Nat
  deriving Repr, DecidableEq

/-- requestPut of part_010 lines 279 to 291: write a pending entry, then
enqueue one copy job. -/
def requestPut (s : MirrorState) : MirrorState :=
  ⟨some "pending", s.jobs + 1, s.uploads⟩

/-- A burst of n identical redirect requests for a new url in which every
request has read the (empty) status store before any wrote: each observes
a miss, takes the absent branch of the part_006 handler, and calls
requestPut. -/
def burstAfterSharedMiss : Nat → MirrorState → MirrorState
  | 0, s => s
  | n + 1, s => burstAfterSharedMiss n (requestPut s)

/-- One queue job processed by a worker (part_002 lines 391 to 400 hands
the message to CacheManager.put): on the success path the worker writes
pending, streams, performs exactly one blob upload, and writes present. -/
def processJob (s : MirrorState) : MirrorState :=
  ⟨some "present", s.jobs - 1, s.uploads + 1⟩

/-- Drain the queue: process the given number of jobs. -/
def processJobs : Nat → MirrorState → MirrorState
  | 0, s => s
  | n + 1, s => processJobs n (processJob s)

/-- Run the worker fleet until the queue for the url is empty. -/
def runWorkers (s : MirrorState) : MirrorState :=
  processJobs s.jobs s

/-! Redirect api handler, validation phase (src/src/api-v1.js lines 47
to 169). -/

/-- Observable outcome of the api-v1 redirect handler: the HTTP status of
the response, the message of an error body, the number of copy jobs
enqueued while handling the request, and the number of blob writes it
caused. -/
structure HandlerOut where
  status : Nat
  msg : String
  enqueues : Nat
  blobWrites : Nat
  deriving Repr, DecidableEq

/-- The message selected by the switch on the validation error code in
src/src/api-v1.js lines 72 to 86. -/
def validationMsg : VErr → String
  | .httpError => "HTTP Error while trying to resolve redirects"
  | .doesNotMatchPatterns => "Input URL does not match whitelist"
  | .insecureUrl => "Refusing to follow a non-SSL redirect"
  | _ => "Input URL failed validation for unknown reason"

/-- The api-v1.js redirect handler up to and including url validation
(lines 47 to 90): a truthy error path parameter yields 400; a raise out of
followRedirects yields 400 with the switched message and the handler
returns before the polling loop, so no job is enqueued and no blob is
written; otherwise the rest of the handler (`rest`) runs. -/
def apiRedirectHandler (oracle : String → HeadResponse)
    (resolve : String → String → String) (patterns : List UrlPattern)
    (redirectLimit : Nat) (ensureSSL : Bool) (errorParam : Bool)
    (url : String) (rest : HandlerOut) : HandlerOut :=
  if errorParam then ⟨400, "URL Must be URL encoded!", 0, 0⟩
  else
    match followRedirects oracle resolve patterns redirectLimit ensureSSL url with
    | .error c => ⟨400, validationMsg c, 0, 0⟩
    | .ok _ => rest

/-! Redirect polling loop of the part_006 handler (lines 88 to 164). -/

/-- Response finally written by the part_006 redirect handler loop. -/
inductive RResp where
  | found (url : String)
  | fallback (url : String)
  | badStatus
  deriving Repr, DecidableEq

/-- Observable outcome of the polling loop: the response, how many one
second sleeps were performed, and the elapsed milliseconds when the
response was sent. -/
structure PollResult where
  resp : RResp
  sleeps : Nat
  elapsed : Nat
  deriving Repr, DecidableEq

/-- Body of the do-while loop of the part_006 redirect handler (lines 94
to 152).  `status` gives the status observed by getUrlForRedirect on each
iteration, `pollTime` the milliseconds that call took, `fatalValidation`
whether the in-loop validateUrl call raises a code the catch at line 110
returns on (BadHTTPStatus or InvalidUrl), `blobUrl` and `origUrl` the two
possible redirect targets.  One iteration polls, validates when the status
is absent or error, answers 302 on present, otherwise sleeps 1000
milliseconds and continues while the elapsed time is below maxWait.  The
fuel only bounds the recursion; maxWait + 1 iterations always suffice
because every continuing iteration adds at least 1000 milliseconds. -/
def redirectPollGo (maxWait : Nat) (status : Nat → String)
    (pollTime : Nat → Nat) (fatalValidation : Bool)
    (blobUrl origUrl : String) : Nat → Nat → Nat → Nat → PollResult
  | 0, _, sleeps, elapsed => ⟨.fallback origUrl, sleeps, elapsed⟩
  | fuel + 1, i, sleeps, elapsed =>
    let e1 := elapsed + pollTime i
    if (status i = "absent" ∨ status i = "error") ∧ fatalValidation then
      ⟨.badStatus, sleeps, e1⟩
    else if status i = "present" then
      ⟨.found blobUrl, sleeps, e1⟩
    else
      let e2 := e1 + 1000
      if e2 < maxWait then
        redirectPollGo maxWait status pollTime fatalValidation blobUrl origUrl
          fuel (i + 1) (sleeps + 1) e2
      else ⟨.fallback origUrl, sleeps + 1, e2⟩

/-- The part_006 redirect polling loop entered with a fresh clock. -/
def redirectPoll (maxWait : Nat) (status : Nat → String)
    (pollTime : Nat → Nat) (fatalValidation : Bool)
    (blobUrl origUrl : String) : PollResult :=
  redirectPollGo maxWait status pollTime fatalValidation blobUrl origUrl
    (maxWait + 1) 0 0 0

/-- Composition of the worker entry point with the S3 provider: the final
status CacheManager.put (part_010) records, when the read stream opened
without raising (`streamOk`), the provider receives `headers`, and the S3
upload itself ends in `uploadOutcome`.  A raise out of s3ProviderPut lands
in the catch of put and is recorded as error; a return, including the one
produced by the swallowed upload error, is followed by the present write. -/
def cmPutFinalStatus (streamOk : Bool) (headers : Headers)
    (uploadOutcome : Except String Unit) : String :=
  if !streamOk then "error"
  else
    match s3ProviderPut headers uploadOutcome with
    | .error _ => "error"
    | .ok _ => "present"

/-! Helper lemmas shared by the claim theorems. -/

/-- Helper: backfillTTL written with integer division: the Math.floor of
the millisecond difference divided by 1000 minus 1800 seconds. -/
theorem backfillTTL_eq_intDiv (e n : Int) :
    backfillTTL e n = (e - n) / 1000 - 1800 := by
  unfold backfillTTL
  have h : ((1000 : ℚ)) = ((1000 : ℕ) : ℚ) := by norm_num
  rw [show ((30 : ℚ) * 60) = ((1800 : ℤ) : ℚ) by norm_num, Int.floor_sub_int, h,
    Rat.floor_intCast_div_natCast]
  norm_num

/-- Helper: when no allowlist pattern matches the current url, one call of
the followRedirects loop fails, with one of the codes InsecureURL,
DoesNotMatchPatterns or RedirectLimitReached, before any HEAD is issued. -/
theorem followRedirectsGo_no_match (oracle : String → HeadResponse)
    (resolve : String → String → String) (patterns : List UrlPattern)
    (ensureSSL : Bool) (m : Nat) (u : String) (addrs : List Hop)
    (hpat : patternsOk patterns u = false) :
    ∃ c, followRedirectsGo oracle resolve patterns ensureSSL m u addrs = .error c := by
  cases m with
  | zero => exact ⟨.redirectLimitReached, rfl⟩
  | succ n =>
    cases hs : sslOk ensureSSL u with
    | false => exact ⟨.insecureUrl, by simp [followRedirectsGo, hs]⟩
    | true => exact ⟨.doesNotMatchPatterns, by simp [followRedirectsGo, hs, hpat]⟩

/-- Helper: when no allowlist pattern matches the current url, one call of
the spec-modelled validator loop fails before any HEAD is issued. -/
theorem specValidateUrlGo_no_match (oracle : String → HeadResponse)
    (resolve : String → String → String) (patterns : List UrlPattern)
    (ensureTLS : Bool) (m : Nat) (u : String) (addrs : List Hop)
    (hpat : patternsOk patterns u = false) :
    ∃ c, specValidateUrlGo oracle resolve patterns ensureTLS m u addrs = .error c := by
  cases m with
  | zero => exact ⟨.redirectLimitReached, rfl⟩
  | succ n =>
    cases hs : sslOk ensureTLS u with
    | false => exact ⟨.insecureUrl, by simp [specValidateUrlGo, hs]⟩
    | true => exact ⟨.doesNotMatchPatterns, by simp [specValidateUrlGo, hs, hpat]⟩

/-- Helper: an oracle that answers every url with a followable redirect
makes the followRedirects loop exhaust any budget and fail with
RedirectLimitReached. -/
theorem followRedirectsGo_all_redirects (oracle : String → HeadResponse)
    (resolve : String → String → String) (patterns : List UrlPattern)
    (ensureSSL : Bool)
    (hssl : ∀ w, sslOk ensureSSL w = true)
    (hpat : ∀ w, patternsOk patterns w = true)
    (hredir : ∀ w, 300 ≤ (oracle w).statusCode ∧ (oracle w).statusCode < 400 ∧
      (oracle w).statusCode ≠ 304 ∧ (oracle w).statusCode ≠ 305)
    (hloc : ∀ w, (oracle w).location.isSome = true) :
    ∀ m u addrs, followRedirectsGo oracle resolve patterns ensureSSL m u addrs =
      .error .redirectLimitReached := by
  intro m
  induction m with
  | zero => intro u addrs; rfl
  | succ n ih =>
    intro u addrs
    obtain ⟨h1, h2, h3, h4⟩ := hredir u
    obtain ⟨loc, hl⟩ := Option.isSome_iff_exists.mp (hloc u)
    simp only [followRedirectsGo, hssl u, hpat u, Bool.not_true, Bool.false_eq_true,
      if_false]
    rw [if_neg (by omega), if_pos ⟨h1, h2, h3, h4⟩, hl]
    exact ih _ _

/-! Claim theorems. -/

/-- C3 (amended): with the TLS and allowlist gates passing at the current
url, one step of followRedirects behaves as follows: a HEAD status of 2xx
terminates validation successfully, returning the current url and the
recorded hop chain; a 3xx status other than 304 and 305 continues with the
Location header resolved against the current url; any other status,
including 304, fails with BadHTTPStatus (code HTTPError); exceeding the
redirect limit, including a limit of 0, fails with TooManyRedirects (code
RedirectLimitReached); the validateUrl variant signals an exhausted limit
by returning false instead of raising. -/
theorem c3_followRedirects_steps (oracle : String → HeadResponse)
    (resolve : String → String → String) (patterns : List UrlPattern)
    (ensureSSL : Bool) (n : Nat) (u : String) (addrs : List Hop)
    (hssl : sslOk ensureSSL u = true) (hpat : patternsOk patterns u = true) :
    (200 ≤ (oracle u).statusCode ∧ (oracle u).statusCode < 300 →
      followRedirectsGo oracle resolve patterns ensureSSL (n + 1) u addrs =
        .ok ⟨u, oracle u, addrs ++ [⟨(oracle u).statusCode, u⟩]⟩)
    ∧ (∀ loc, (oracle u).location = some loc →
        300 ≤ (oracle u).statusCode → (oracle u).statusCode < 400 →
        (oracle u).statusCode ≠ 304 → (oracle u).statusCode ≠ 305 →
        followRedirectsGo oracle resolve patterns ensureSSL (n + 1) u addrs =
          followRedirectsGo oracle resolve patterns ensureSSL n
            (resolve u (resolve u loc)) (addrs ++ [⟨(oracle u).statusCode, u⟩]))
    ∧ (¬(200 ≤ (oracle u).statusCode ∧ (oracle u).statusCode < 300) →
        ¬(300 ≤ (oracle u).statusCode ∧ (oracle u).statusCode < 400 ∧
          (oracle u).statusCode ≠ 304 ∧ (oracle u).statusCode ≠ 305) →
        followRedirectsGo oracle resolve patterns ensureSSL (n + 1) u addrs =
          .error .httpError)
    ∧ ((oracle u).statusCode = 304 →
        followRedirectsGo oracle resolve patterns ensureSSL (n + 1) u addrs =
          .error .httpError)
    ∧ followRedirectsGo oracle resolve patterns ensureSSL 0 u addrs =
        .error .redirectLimitReached
    ∧ ((∀ w, sslOk ensureSSL w = true) → (∀ w, patternsOk patterns w = true) →
        (∀ w, 300 ≤ (oracle w).statusCode ∧ (oracle w).statusCode < 400 ∧
          (oracle w).statusCode ≠ 304 ∧ (oracle w).statusCode ≠ 305) →
        (∀ w, (oracle w).location.isSome = true) →
        ∀ m v a, followRedirectsGo oracle resolve patterns ensureSSL m v a =
          .error .redirectLimitReached)
    ∧ validateUrlGo oracle resolve patterns ensureSSL 0 u addrs = .ok none := by
  refine ⟨?_, ?_, ?_, ?_, rfl, ?_, rfl⟩
  · intro h
    simp only [followRedirectsGo, hssl, hpat, Bool.not_true, Bool.false_eq_true, if_false]
    rw [if_pos h]
  · intro loc hloc h1 h2 h3 h4
    simp only [followRedirectsGo, hssl, hpat, Bool.not_true, Bool.false_eq_true, if_false]
    rw [if_neg (by omega), if_pos ⟨h1, h2, h3, h4⟩, hloc]
  · intro h1 h2
    simp only [followRedirectsGo, hssl, hpat, Bool.not_true, Bool.false_eq_true, if_false]
    rw [if_neg h1, if_neg h2]
  · intro h304
    simp only [followRedirectsGo, hssl, hpat, Bool.not_true, Bool.false_eq_true, if_false]
    rw [if_neg (by omega), if_neg (by omega)]
  · intro a b c d
    exact followRedirectsGo_all_redirects oracle resolve patterns ensureSSL a b c d

/-- Witness for C3: the success conjunct evaluated at a concrete chain of
length one ending in a 200. -/
theorem c3_followRedirects_steps_witness :
    followRedirectsGo (fun _ => ⟨200, none⟩) (fun _ loc => loc) [fun _ => true]
        true 4 "https://origin.example/a" [] =
      .ok ⟨"https://origin.example/a", ⟨200, none⟩,
           [⟨200, "https://origin.example/a"⟩]⟩ := by
  exact (c3_followRedirects_steps (fun _ => ⟨200, none⟩) (fun _ loc => loc)
    [fun _ => true] true 3 "https://origin.example/a" [] (by decide) (by decide)).1
    (by decide)

/-- Counterexample for C3 as stated: a HEAD answering 304 does not
terminate validation successfully; followRedirects fails with HTTPError
(the BadHTTPStatus of the spec taxonomy). -/
theorem c3_counterexample_304 :
    followRedirects (fun _ => ⟨304, none⟩) (fun _ loc => loc) [fun _ => true]
        30 true "https://origin.example/a" = .error .httpError
    ∧ (followRedirects (fun _ => ⟨304, none⟩) (fun _ loc => loc) [fun _ => true]
        30 true "https://origin.example/a").isOk = false := by
  exact ⟨rfl, rfl⟩

/-- C4 (amended): a redirect request whose decoded url matches no allowlist
pattern is answered with HTTP status 400 (not 403), no copy job is
enqueued, and no blob is written: validation fails before the polling loop
of the handler is reached. -/
theorem c4_disallowed_url_yields_400 (oracle : String → HeadResponse)
    (resolve : String → String → String) (patterns : List UrlPattern)
    (redirectLimit : Nat) (ensureSSL : Bool) (u : String) (rest : HandlerOut)
    (hpat : patternsOk patterns u = false) :
    (apiRedirectHandler oracle resolve patterns redirectLimit ensureSSL false u rest).status = 400
    ∧ (apiRedirectHandler oracle resolve patterns redirectLimit ensureSSL false u rest).enqueues = 0
    ∧ (apiRedirectHandler oracle resolve patterns redirectLimit ensureSSL false u rest).blobWrites = 0
    ∧ (apiRedirectHandler oracle resolve patterns redirectLimit ensureSSL false u rest).status ≠ 403 := by
  obtain ⟨c, hc⟩ := followRedirectsGo_no_match oracle resolve patterns ensureSSL
    redirectLimit u [] hpat
  have h : apiRedirectHandler oracle resolve patterns redirectLimit ensureSSL false u rest =
      ⟨400, validationMsg c, 0, 0⟩ := by
    simp [apiRedirectHandler, followRedirects, hc]
  rw [h]
  exact ⟨rfl, rfl, rfl, by simp⟩

/-- Witness for C4 (amended) at a concrete disallowed url. -/
theorem c4_disallowed_url_yields_400_witness :
    (apiRedirectHandler (fun _ => ⟨200, none⟩) (fun _ loc => loc)
      [fun v => v = "https://allowed.example/only"] 30 true false
      "https://www.facebook.com" ⟨302, "reached", 7, 7⟩).status = 400 := by
  exact (c4_disallowed_url_yields_400 (fun _ => ⟨200, none⟩) (fun _ loc => loc)
    [fun v => v = "https://allowed.example/only"] 30 true
    "https://www.facebook.com" ⟨302, "reached", 7, 7⟩ (by decide)).1

/-- Counterexample for C4 as stated: at a concrete request whose decoded
url matches no allowlist pattern the handler answers 400, not 403, with
nothing enqueued and nothing written. -/
theorem c4_counterexample_status_is_400 :
    apiRedirectHandler (fun _ => ⟨200, none⟩) (fun _ loc => loc)
      [fun v => v = "https://allowed.example/only"] 30 true false
      "https://www.facebook.com" ⟨302, "reached", 7, 7⟩ =
      ⟨400, "Input URL does not match whitelist", 0, 0⟩
    ∧ (400 : Nat) ≠ 403 := by
  exact ⟨rfl, by decide⟩

/-- Helper: the polling loop never answers later than maxWait plus one
full iteration (one status poll bounded by P plus the one second sleep),
whatever statuses are observed. -/
theorem redirectPollGo_elapsed_le (maxWait : Nat) (status : Nat → String)
    (pollTime : Nat → Nat) (fatalValidation : Bool) (blobUrl origUrl : String)
    (P : Nat) (hP : ∀ i, pollTime i ≤ P) :
    ∀ fuel i sleeps elapsed, elapsed ≤ maxWait →
      (redirectPollGo maxWait status pollTime fatalValidation blobUrl origUrl
        fuel i sleeps elapsed).elapsed ≤ maxWait + P + 1000 := by
  intro fuel
  induction fuel with
  | zero =>
    intro i sleeps elapsed he
    simpa [redirectPollGo] using le_trans he (by omega)
  | succ n ih =>
    intro i sleeps elapsed he
    have hpi := hP i
    simp only [redirectPollGo]
    split
    · show elapsed + pollTime i ≤ maxWait + P + 1000
      omega
    · split
      · show elapsed + pollTime i ≤ maxWait + P + 1000
        omega
      · split
        · next hlt =>
          exact ih (i + 1) (sleeps + 1) (elapsed + pollTime i + 1000) (by omega)
        · show elapsed + pollTime i + 1000 ≤ maxWait + P + 1000
          omega

/-- C5 (amended): the part_006 polling loop is a do-while, so its body runs
at least once.  Whatever maxWait is, a first poll observing absent or
error whose in-loop validateUrl raise carries a code the catch returns on
(BadHTTPStatus or InvalidUrl) is answered with that error status at once,
with no sleep and no fallback.  Otherwise, with maxWaitForCachedCopy = 0:
a request whose first poll observes present is answered at once with the
302 to the blob url, with no sleep; any other first status (pending, or
absent or error with a non-fatal validation outcome) leads to exactly one
poll and one one-second sleep before the fallback 302 to the original
url.  In general the elapsed time at the response is bounded by maxWait
plus one poll plus one sleep, not by maxWait itself. -/
theorem c5_poll_loop_bounds (status : Nat → String) (pollTime : Nat → Nat)
    (fatalValidation : Bool) (blobUrl origUrl : String) (maxWait P : Nat)
    (hP : ∀ i, pollTime i ≤ P) :
    (status 0 = "present" →
      redirectPoll 0 status pollTime fatalValidation blobUrl origUrl =
        ⟨.found blobUrl, 0, pollTime 0⟩)
    ∧ ((status 0 = "absent" ∨ status 0 = "error") → fatalValidation = true →
      redirectPoll maxWait status pollTime fatalValidation blobUrl origUrl =
        ⟨.badStatus, 0, pollTime 0⟩)
    ∧ (status 0 ≠ "present" →
      ¬((status 0 = "absent" ∨ status 0 = "error") ∧ fatalValidation = true) →
      redirectPoll 0 status pollTime fatalValidation blobUrl origUrl =
        ⟨.fallback origUrl, 1, pollTime 0 + 1000⟩)
    ∧ (redirectPoll maxWait status pollTime fatalValidation blobUrl origUrl).elapsed ≤
        maxWait + P + 1000 := by
  refine ⟨?_, ?_, ?_, ?_⟩
  · intro h
    simp [redirectPoll, redirectPollGo, h]
  · intro h hf
    simp only [redirectPoll, redirectPollGo]
    rw [if_pos ⟨h, hf⟩, Nat.zero_add]
  · intro hns hnf
    simp only [redirectPoll, redirectPollGo]
    rw [if_neg hnf, if_neg hns, if_neg (by omega)]
    simp
  · exact redirectPollGo_elapsed_le maxWait status pollTime fatalValidation
      blobUrl origUrl P hP (maxWait + 1) 0 0 0 (Nat.zero_le _)

/-- Witness for C5 (amended): at a concrete configuration with
maxWaitForCachedCopy = 0, a first poll observing pending sleeps once and
falls back after 1000 milliseconds, while a first poll observing absent
under a fatal validation outcome is answered at once with the error
status and no sleep. -/
theorem c5_poll_loop_bounds_witness :
    redirectPoll 0 (fun _ => "pending") (fun _ => 0) false
      "https://cm-bucket.s3-us-west-1.amazonaws.com/k" "https://origin.example/a" =
      ⟨.fallback "https://origin.example/a", 1, 1000⟩
    ∧ redirectPoll 0 (fun _ => "absent") (fun _ => 0) true
      "https://cm-bucket.s3-us-west-1.amazonaws.com/k" "https://origin.example/a" =
      ⟨.badStatus, 0, 0⟩ := by
  constructor
  · exact (c5_poll_loop_bounds (fun _ => "pending") (fun _ => 0) false
      "https://cm-bucket.s3-us-west-1.amazonaws.com/k" "https://origin.example/a"
      0 0 (fun _ => Nat.le_refl 0)).2.2.1 (by decide) (by decide)
  · exact (c5_poll_loop_bounds (fun _ => "absent") (fun _ => 0) true
      "https://cm-bucket.s3-us-west-1.amazonaws.com/k" "https://origin.example/a"
      0 0 (fun _ => Nat.le_refl 0)).2.1 (Or.inl rfl) rfl

/-- Counterexample for C5 as stated: with maxWaitForCachedCopy = 0 a
request whose polls observe pending is answered only after one one-second
sleep, so the number of sleeps is 1, not 0, and the elapsed time 1000
exceeds maxWait = 0; and a request whose first poll observes present is
answered with a 302 to the blob url, not the fallback 302 to the original
url. -/
theorem c5_counterexample_do_while :
    redirectPoll 0 (fun _ => "pending") (fun _ => 0) false
      "https://cm-bucket.s3-us-west-1.amazonaws.com/k" "https://origin.example/a" =
      ⟨.fallback "https://origin.example/a", 1, 1000⟩
    ∧ redirectPoll 0 (fun _ => "present") (fun _ => 0) false
      "https://cm-bucket.s3-us-west-1.amazonaws.com/k" "https://origin.example/a" =
      ⟨.found "https://cm-bucket.s3-us-west-1.amazonaws.com/k", 0, 0⟩
    ∧ (1 : Nat) ≠ 0 ∧ 1000 > 0 := by
  exact ⟨rfl, rfl, by decide, by decide⟩

/-- C6 (amended): the entry written as present by the backfill path of
getUrlForRedirect has TTL equal to the floor of the blob remaining life in
seconds minus 1800; that TTL never exceeds the remaining life minus the 30
minute margin, and it is negative, not floored to 0, whenever the blob
expires within the next 30 minutes. -/
theorem c6_backfill_ttl (addr : String) (info : UrlInfo)
    (validator : String → Except VErr UrlInfo) (expOf : HeadResponse → Int)
    (nowMs : Int) (hv : validator addr = .ok info)
    (h2a : 200 ≤ info.meta.statusCode) (h2b : info.meta.statusCode < 300) :
    getUrlForRedirect none addr validator expOf nowMs =
      .ok ⟨addr, "present", some (backfillTTL (expOf info.meta) nowMs)⟩
    ∧ ((backfillTTL (expOf info.meta) nowMs : ℚ) ≤
        ((expOf info.meta : ℚ) - (nowMs : ℚ)) / 1000 - 1800)
    ∧ (expOf info.meta - nowMs < 1800000 →
        backfillTTL (expOf info.meta) nowMs < 0) := by
  refine ⟨?_, ?_, ?_⟩
  · simp [getUrlForRedirect, hv, h2a, h2b]
  · have h := Int.floor_le (α := ℚ)
      (((expOf info.meta - nowMs : Int) : ℚ) / 1000 - 30 * 60)
    unfold backfillTTL
    push_cast at h ⊢
    linarith
  · intro hlt
    unfold backfillTTL
    rw [Int.floor_lt]
    have hq : ((expOf info.meta - nowMs : Int) : ℚ) < 1800000 := by
      exact_mod_cast hlt
    push_cast at hq ⊢
    linarith

/-- Witness for C6 (amended): a concrete backfill where the blob expires in
ten minutes produces a present entry whose TTL is the negative number
-1200. -/
theorem c6_backfill_ttl_witness :
    getUrlForRedirect none "https://cm-bucket.s3-us-west-1.amazonaws.com/k"
      (fun _ => .ok ⟨"https://cm-bucket.s3-us-west-1.amazonaws.com/k", ⟨200, none⟩, []⟩)
      (fun _ => 600000) 0 =
      .ok ⟨"https://cm-bucket.s3-us-west-1.amazonaws.com/k", "present",
           some (backfillTTL 600000 0)⟩ := by
  exact (c6_backfill_ttl "https://cm-bucket.s3-us-west-1.amazonaws.com/k"
    ⟨"https://cm-bucket.s3-us-west-1.amazonaws.com/k", ⟨200, none⟩, []⟩
    (fun _ => .ok ⟨"https://cm-bucket.s3-us-west-1.amazonaws.com/k", ⟨200, none⟩, []⟩)
    (fun _ => 600000) 0 rfl (by decide) (by decide)).1

/-- Counterexample for C6 as stated: with the blob expiring 600000
milliseconds from now, the backfilled TTL is -1200 seconds; no flooring at
0 happens and the stored TTL is negative. -/
theorem c6_counterexample_negative_ttl :
    backfillTTL 600000 0 = -1200 ∧ backfillTTL 600000 0 < 0 := by
  have h : backfillTTL 600000 0 = -1200 := by
    rw [backfillTTL_eq_intDiv]; decide
  exact ⟨h, by rw [h]; decide⟩

/-- Helper: a burst of n requests that all observed the shared miss adds n
jobs to the queue and performs no upload. -/
theorem burstAfterSharedMiss_spec (n : Nat) :
    ∀ s : MirrorState, (burstAfterSharedMiss n s).jobs = s.jobs + n ∧
      (burstAfterSharedMiss n s).uploads = s.uploads := by
  induction n with
  | zero => intro s; exact ⟨rfl, rfl⟩
  | succ m ih =>
    intro s
    obtain ⟨h1, h2⟩ := ih (requestPut s)
    constructor
    · rw [burstAfterSharedMiss, h1]; simp [requestPut]; omega
    · rw [burstAfterSharedMiss, h2]; rfl

/-- Helper: draining m jobs performs exactly m blob uploads. -/
theorem processJobs_uploads (m : Nat) :
    ∀ s : MirrorState, (processJobs m s).uploads = s.uploads + m := by
  induction m with
  | zero => intro s; rfl
  | succ k ih =>
    intro s
    rw [processJobs, ih]
    simp [processJob]
    omega

/-- C1 (amended): the code acquires no lock.  CacheManager.put emits no
lock acquisition in any of its traces, and for every concurrent burst of n
identical redirect requests for a new url in which each request reads the
status store before any has written (an interleaving the code permits,
having no conditional write), n copy jobs are enqueued and draining them
performs n blob uploads, not 1. -/
theorem c1_no_single_flight :
    (∀ o : PutOutcome, Ev.lockAcquire ∉ putTrace o)
    ∧ (∀ n : Nat,
        (burstAfterSharedMiss n ⟨none, 0, 0⟩).jobs = n ∧
        (runWorkers (burstAfterSharedMiss n ⟨none, 0, 0⟩)).uploads = n) := by
  constructor
  · intro o; cases o <;> decide
  · intro n
    obtain ⟨hj, hu⟩ := burstAfterSharedMiss_spec n ⟨none, 0, 0⟩
    refine ⟨by simpa using hj, ?_⟩
    unfold runWorkers
    rw [processJobs_uploads, hu, hj]
    simp

/-- Witness for C1 (amended): the burst of three requests evaluated
concretely performs three uploads. -/
theorem c1_no_single_flight_witness :
    (runWorkers (burstAfterSharedMiss 3 ⟨none, 0, 0⟩)).uploads = 3 := by
  exact (c1_no_single_flight.2 3).2

/-- Counterexample for C1 as stated: a concurrent burst of two identical
redirect requests for the same new url, each polling the empty status
store before either wrote, enqueues two copy jobs and performs two blob
uploads, not exactly one; and the success trace of CacheManager.put
contains no lock acquisition before the bytes are sent. -/
theorem c1_counterexample_two_uploads :
    (runWorkers (burstAfterSharedMiss 2 ⟨none, 0, 0⟩)).uploads = 2
    ∧ (2 : Nat) ≠ 1
    ∧ Ev.lockAcquire ∉ putTrace .success := by
  exact ⟨rfl, by decide, by decide⟩

/-- C2 theorem: evaluation of the code at the failing input.  With a valid
Content-Type header and an S3 upload whose send reports an error, the
empty catch block of S3StorageProvider.put swallows the error: the
provider returns normally with no upload result, and CacheManager.put
then records status present although no object was stored. -/
theorem c2_failed_upload_still_present :
    s3ProviderPut [("Content-Type", "application/octet-stream")]
        (.error "RequestAbortedError: upload aborted by watchdog") =
      .ok ⟨[("ContentType", "application/octet-stream")], none⟩
    ∧ cmPutFinalStatus true [("Content-Type", "application/octet-stream")]
        (.error "RequestAbortedError: upload aborted by watchdog") = "present" := by
  exact ⟨rfl, rfl⟩

/-- C7: within every trace of CacheManager.put, the pending write precedes
any byte sent to the blob store, the present write occurs only after
storageProvider.put returned success, and error writes occur only on the
failure paths, never in the success trace; every trace opens with the
pending write. -/
theorem c7_put_status_ordering :
    ∀ o : PutOutcome,
      pendingBeforeBytes (putTrace o) = true
      ∧ presentOnlyAfterUpload false (putTrace o) = true
      ∧ (o = .success → hasErrorWrite (putTrace o) = false)
      ∧ (putTrace o).head? = some (.insertEntry "pending" false) := by
  intro o
  cases o with
  | success => exact ⟨rfl, rfl, fun _ => rfl, rfl⟩
  | validationError => exact ⟨rfl, rfl, fun h => absurd h (by decide), rfl⟩
  | streamError => exact ⟨rfl, rfl, fun h => absurd h (by decide), rfl⟩
  | uploadError => exact ⟨rfl, rfl, fun h => absurd h (by decide), rfl⟩

/-- Witness for C7: the ordering facts evaluated on the success trace. -/
theorem c7_put_status_ordering_witness :
    pendingBeforeBytes (putTrace .success) = true
    ∧ hasErrorWrite (putTrace .success) = false := by
  exact ⟨(c7_put_status_ordering .success).1,
         (c7_put_status_ordering .success).2.2.1 rfl⟩

/-- C8 (amended): only the stream error path purges the blob before
writing error; a validation failure or an upload failure reaches the catch
of CacheManager.put, which writes error with the stack text and performs
no blob delete; every error write carries the stack text. -/
theorem c8_failure_paths :
    (purgeBeforeErrorWrite (putTrace .streamError) = true
      ∧ hasPurge (putTrace .streamError) = true)
    ∧ (hasPurge (putTrace .uploadError) = false
      ∧ hasErrorWrite (putTrace .uploadError) = true)
    ∧ (hasPurge (putTrace .validationError) = false
      ∧ hasErrorWrite (putTrace .validationError) = true)
    ∧ (∀ o : PutOutcome, errorWritesCarryStack (putTrace o) = true) := by
  refine ⟨⟨rfl, rfl⟩, ⟨rfl, rfl⟩, ⟨rfl, rfl⟩, ?_⟩
  intro o
  cases o <;> rfl

/-- Counterexample for C8 as stated: on an upload failure the worker
writes error without any preceding blob delete, so the claim that every
failure cause performs a blob delete before the error write is false. -/
theorem c8_counterexample_upload_error_no_purge :
    hasErrorWrite (putTrace .uploadError) = true
    ∧ hasPurge (putTrace .uploadError) = false
    ∧ purgeBeforeErrorWrite (putTrace .uploadError) = false := by
  exact ⟨rfl, rfl, rfl⟩

/-- C9 (amended): a get that finds no entry returns the miss value and is
not an error; a store error during get is reported to the monitor
(reportError plus the redis.cache-read-failure count) and swallowed, the
caller receiving the miss value, not the error; a store error during put
is reported (reportError plus redis.cache-insert-failure) and swallowed,
the put returning normally; a found entry with a valid status is returned
with a hit count. -/
theorem c9_store_adapter_behaviour :
    readCacheEntry (.ok none) = (.ok none, [.countMiss])
    ∧ (∀ msg : String, readCacheEntry (.error msg) =
        (.ok none, [.reportError, .countReadFailure, .countMiss]))
    ∧ (∀ (ttl : Int) (stack : Option String) (msg : String), ttl ≠ 0 →
        insertCacheEntry "pending" ttl stack (.error msg) =
          .ok [.reportError, .countInsertFailure])
    ∧ (∀ e : CacheEntryR, e.status ∈ CACHE_STATES →
        readCacheEntry (.ok (some e)) = (.ok (some e), [.countHit])) := by
  refine ⟨rfl, fun _ => rfl, ?_, ?_⟩
  · intro ttl stack msg h
    simp [insertCacheEntry, CACHE_STATES, h]
  · intro e he
    simp [readCacheEntry, he]

/-- Witness for C9 (amended): the swallowed put error and the hit case at
concrete inputs. -/
theorem c9_store_adapter_behaviour_witness :
    insertCacheEntry "pending" 3600 none (.error "status store down") =
      .ok [.reportError, .countInsertFailure]
    ∧ readCacheEntry (.ok (some ⟨"https://origin.example/a", "present", none⟩)) =
      (.ok (some ⟨"https://origin.example/a", "present", none⟩), [.countHit]) := by
  exact ⟨(c9_store_adapter_behaviour.2.2.1 3600 none "status store down" (by decide)),
         (c9_store_adapter_behaviour.2.2.2 ⟨"https://origin.example/a", "present", none⟩
           (by decide))⟩

/-- Counterexample for C9 as stated: at a concrete store failure the
adapter returns the miss value, an ok, not the error: the error is
reported but not propagated to the caller. -/
theorem c9_counterexample_error_not_propagated :
    readCacheEntry (.error "status store flushed") =
      (.ok none, [.reportError, .countReadFailure, .countMiss])
    ∧ (Except.ok none : Except String (Option CacheEntryR)) ≠
        .error "status store flushed" := by
  exact ⟨rfl, fun h => Except.noConfusion h⟩

/-- C10: on a status store miss, getUrlForRedirect of part_010 runs the
blob public url through the full url validator, so whenever no allowlist
pattern admits the worldAddress of the url, the validator fails before any
HEAD and the outcome is absent with no backfill insert, for every HEAD
oracle, including one that answers 200 for the stored object. -/
theorem c10_backfill_gated_by_allowlist (oracle : String → HeadResponse)
    (resolve : String → String → String) (patterns : List UrlPattern)
    (redirectLimit : Nat) (ensureTLS : Bool) (expOf : HeadResponse → Int)
    (nowMs : Int) (region bucket : String) (uriEncode : String → String)
    (rawUrl : String)
    (hpat : patternsOk patterns (worldAddress region bucket uriEncode rawUrl) = false) :
    getUrlForRedirect none (worldAddress region bucket uriEncode rawUrl)
        (specValidateUrl oracle resolve patterns redirectLimit ensureTLS)
        expOf nowMs =
      .ok ⟨worldAddress region bucket uriEncode rawUrl, "absent", none⟩ := by
  obtain ⟨c, hc⟩ := specValidateUrlGo_no_match oracle resolve patterns ensureTLS
    redirectLimit (worldAddress region bucket uriEncode rawUrl) [] hpat
  simp [getUrlForRedirect, specValidateUrl, hc]

/-- Witness for C10: a concrete configuration whose allowlist admits only
one exact url rejects the S3 worldAddress, and the outcome is absent even
though the HEAD oracle answers 200 everywhere. -/
theorem c10_backfill_gated_by_allowlist_witness :
    getUrlForRedirect none
        (worldAddress "us-west-1" "cm-bucket" (fun s => s) "https://origin.example/a")
        (specValidateUrl (fun _ => ⟨200, none⟩) (fun _ loc => loc)
          [fun v => v = "https://allowed.example/only"] 30 true)
        (fun _ => 600000) 0 =
      .ok ⟨worldAddress "us-west-1" "cm-bucket" (fun s => s) "https://origin.example/a",
           "absent", none⟩ := by
  exact c10_backfill_gated_by_allowlist (fun _ => ⟨200, none⟩) (fun _ loc => loc)
    [fun v => v = "https://allowed.example/only"] 30 true (fun _ => 600000) 0
    "us-west-1" "cm-bucket" (fun s => s) "https://origin.example/a" (by decide)

end CloudMirror
